import Mathlib

set_option maxRecDepth 100000

/-!
Shallow embedding of `src/utils/scripts/analyze_gas.py` (gas analysis script).

The script is a three-stage pipeline:
1. `extract_tx_hashes` scans a log file for `tx_hash=0x<64 hex>` tokens
   (one `re.search` per line, so at most one match per line);
2. `fetch_transaction_receipt` issues one JSON-RPC call per hash and the
   main loop keeps a receipt exactly when the returned value is truthy;
3. the report writer dumps the kept records and computes gas statistics
   over records whose `gasUsed` field is truthy, parsing hex or decimal
   via Python's `int`, which raises on malformed input.

Python values flowing through the script are modelled by `Json`
(a JSON-like value type where `Json.null` also stands for Python's `None`,
since `json` decodes JSON `null` to `None`).  Machine-level concerns
(actual sockets, files) are modelled by explicit inputs: the log file is an
optional list of lines, the RPC endpoint is a function from hash to
optional response body (`none` = transport-level failure, i.e. a
`requests.exceptions.RequestException`), and output-write success is a
boolean.
-/

namespace AnalyzeGas

/-- JSON-like values as produced by Python's `json` module, with integer
numerics (the receipts consumed by the script carry integer-valued fields).
`Json.null` models both JSON `null` and Python `None`. -/
inductive Json where
  | null : Json
  | bool : Bool → Json
  | num : Int → Json
  | str : String → Json
  | arr : List Json → Json
  | obj : List (String × Json) → Json
deriving Repr

/-- Python truthiness (`if receipt:` / `if receipt.get("gasUsed"):`):
`None`, `False`, `0`, `""`, `[]` and `{}` are falsy, everything else truthy. -/
def truthy : Json → Bool
  | Json.null => false
  | Json.bool b => b
  | Json.num n => n != 0
  | Json.str s => s != ""
  | Json.arr xs => !xs.isEmpty
  | Json.obj fs => !fs.isEmpty

/-- `d.get(k)` / `k in d` on a decoded JSON object: key lookup returning
`none` when the key is absent.  (On a non-object Python would raise; the
script only reaches these lookups with object-shaped values in the runs
modelled here.) -/
def Json.get : Json → String → Option Json
  | Json.obj fs, k => fs.lookup k
  | _, _ => none

/-! ## Log Scanner: `extract_tx_hashes`

The source compiles `re.compile(r'tx_hash=(0x[a-fA-F0-9]{64})')` and calls
`pattern.search(line)` once per line, appending `match.group(1)` when the
search succeeds.  `re.search` returns the leftmost match, so a line
contributes at most one hash: the leftmost well-formed occurrence. -/

/-- A hex digit in the character class `[a-fA-F0-9]`. -/
def isHexChar (c : Char) : Bool :=
  ('0' ≤ c && c ≤ '9') || ('a' ≤ c && c ≤ 'f') || ('A' ≤ c && c ≤ 'F')

/-- Whether the regex `tx_hash=(0x[a-fA-F0-9]{64})` matches at the start of
`cs`: the literal `tx_hash=`, then `0x`, then 64 hex digits. -/
def matchesAt (cs : List Char) : Bool :=
  (cs.take 8 == "tx_hash=".toList)
    && ((cs.drop 8).take 2 == "0x".toList)
    && (((cs.drop 10).take 64).length == 64)
    && ((cs.drop 10).take 64).all isHexChar

/-- The capture group of a match starting at the head of `cs`:
`0x` plus the 64 hex digits. -/
def captureAt (cs : List Char) : List Char :=
  (cs.drop 8).take 66

/-- `pattern.search(line)`: the capture group of the leftmost match of
`tx_hash=(0x[a-fA-F0-9]{64})` in the line, if any. -/
def searchLine : List Char → Option (List Char)
  | [] => none
  | c :: rest =>
      if matchesAt (c :: rest) then some (captureAt (c :: rest))
      else searchLine rest

/-- `extract_tx_hashes`, on an already-read log file (list of lines): one
hash per line on which the regex search succeeds, in file order. -/
def extract_tx_hashes (lines : List (List Char)) : List (List Char) :=
  lines.filterMap searchLine

/-- Specification-side notion used to state the scanner claims: the capture
groups of every position of a line at which the pattern matches, left to
right.  (The source extracts only the first of these per line.) -/
def occurrences : List Char → List (List Char)
  | [] => []
  | c :: rest =>
      (if matchesAt (c :: rest) then [captureAt (c :: rest)] else [])
        ++ occurrences rest

/-! ## Receipt Fetcher: `fetch_transaction_receipt` -/

/-- `fetch_transaction_receipt`, given the outcome of the HTTP POST:
`none` models a `requests.exceptions.RequestException` (connection error,
timeout, non-2xx status), which the function catches and turns into `None`;
`some body` is the decoded JSON response.  A body with an `"error"` key
yields `None`; otherwise the function returns `body.get("result")`, which
is `None` when the key is absent or its value is JSON `null`. -/
def fetch_transaction_receipt (response : Option Json) : Json :=
  match response with
  | none => Json.null
  | some body =>
      if (body.get "error").isSome then Json.null
      else ((body.get "result").getD Json.null)

/-! ## Main fetch loop (lines 115–134 of the source)

The loop keeps a record `{"tx_hash": h, "receipt": receipt}` and increments
`successful` exactly when `if receipt:` holds, i.e. when the fetched value
is truthy; otherwise it increments `failed` and moves on.  We model the
loop over the list of hashes paired with the HTTP outcome each one got. -/

/-- The loop state after processing all hashes: the kept records
(hash, receipt) in order, and the `successful` / `failed` counters. -/
structure FetchOutcome where
  receipts : List (List Char × Json)
  successful : Nat
  failed : Nat
deriving Repr

/-- The fetch loop of `main`: for each hash (paired with its HTTP outcome),
fetch the receipt and keep it iff it is truthy. -/
def processHashes : List (List Char × Option Json) → FetchOutcome
  | [] => ⟨[], 0, 0⟩
  | (h, resp) :: rest =>
      let receipt := fetch_transaction_receipt resp
      let out := processHashes rest
      if truthy receipt then
        ⟨(h, receipt) :: out.receipts, out.successful + 1, out.failed⟩
      else
        ⟨out.receipts, out.successful, out.failed + 1⟩

/-! ## Gas parsing and statistics (lines 147–178 of the source)

`int(s, 16)` and `int(s)` raise `ValueError` on malformed strings and
`TypeError` on non-numeric non-string values; the script has no handler
around them, so an unparsable `gasUsed` aborts the run.  We model the
builtin `int` on the forms a receipt can carry: an optional sign followed
by digits (hex digits with an optional `0x`/`0X` prefix for base 16);
numbers and booleans convert directly, anything else fails. -/

/-- Value of a decimal digit, `none` for non-digits. -/
def digitVal (c : Char) : Option Nat :=
  if '0' ≤ c && c ≤ '9' then some (c.toNat - 48) else none

/-- Value of a hex digit, `none` for non-hex characters. -/
def hexVal (c : Char) : Option Nat :=
  if '0' ≤ c && c ≤ '9' then some (c.toNat - 48)
  else if 'a' ≤ c && c ≤ 'f' then some (c.toNat - 87)
  else if 'A' ≤ c && c ≤ 'F' then some (c.toNat - 55)
  else none

/-- Parse a non-empty digit string in the given base; fails on an empty
string or any character outside the digit alphabet. -/
def parseNatBase (base : Nat) (dig : Char → Option Nat) (cs : List Char) :
    Option Nat :=
  if cs.isEmpty then none
  else cs.foldl (fun acc c => acc.bind fun a => (dig c).map fun d => a * base + d)
    (some 0)

/-- Python `int(s)` on a string: optional sign then decimal digits. -/
def pythonIntOfString (s : String) : Option Int :=
  match s.toList with
  | '-' :: rest => (parseNatBase 10 digitVal rest).map fun n => -(n : Int)
  | '+' :: rest => (parseNatBase 10 digitVal rest).map fun n => (n : Int)
  | cs => (parseNatBase 10 digitVal cs).map fun n => (n : Int)

/-- Python `int(s, 16)` on a string: optional sign, optional `0x`/`0X`
prefix, then hex digits. -/
def pythonIntHexString (s : String) : Option Int :=
  let core : List Char → Option Nat
    | '0' :: 'x' :: rest => parseNatBase 16 hexVal rest
    | '0' :: 'X' :: rest => parseNatBase 16 hexVal rest
    | cs => parseNatBase 16 hexVal cs
  match s.toList with
  | '-' :: rest => (core rest).map fun n => -(n : Int)
  | '+' :: rest => (core rest).map fun n => (n : Int)
  | cs => (core cs).map fun n => (n : Int)

/-- Lines 153–156 of the source: if `gasUsed` is a string starting with
`"0x"` (`gas_used_hex.startswith("0x")`, expressed on the character list)
it is parsed with `int(_, 16)`, otherwise converted with `int(_)`.
`none` models the `ValueError` / `TypeError` the conversion raises. -/
def parseGasUsed : Json → Option Int
  | Json.str s =>
      match s.toList with
      | '0' :: 'x' :: _ => pythonIntHexString s
      | _ => pythonIntOfString s
  | Json.num n => some n
  | Json.bool b => some (if b then 1 else 0)
  | _ => none

/-- The `gas_used_values` accumulation loop (lines 147–157): a record
contributes iff its receipt is truthy and its `gasUsed` value is truthy;
a contributing value that `int` cannot parse raises, aborting the run,
which we model as `Except.error`. -/
def gasUsedValues : List (List Char × Json) → Except Unit (List Int)
  | [] => Except.ok []
  | (_, receipt) :: rest =>
      let g := (receipt.get "gasUsed").getD Json.null
      if truthy receipt && truthy g then
        match parseGasUsed g with
        | none => Except.error ()
        | some n =>
            match gasUsedValues rest with
            | Except.error e => Except.error e
            | Except.ok vs => Except.ok (n :: vs)
      else gasUsedValues rest

/-- The per-record selection the statistics loop implements, stated as an
optional value: the parsed `gasUsed` when the receipt and its `gasUsed`
value are both truthy, `none` otherwise. -/
def selectGas (p : List Char × Json) : Option Int :=
  if truthy p.2 && truthy ((p.2.get "gasUsed").getD Json.null)
  then parseGasUsed ((p.2.get "gasUsed").getD Json.null)
  else none

/-- The printed gas statistics (lines 166–176). -/
structure GasStats where
  avgGas : Rat
  minGas : Int
  maxGas : Int
  totalGas : Int
deriving Repr, DecidableEq

/-- Lines 166–178: if `gas_used_values` is non-empty, report average
(`sum / len`, a real division), minimum, maximum and total; otherwise
print "No gas usage data available" (modelled by `none`). -/
def computeStats : List Int → Option GasStats
  | [] => none
  | v :: vs =>
      some {
        avgGas := ((v :: vs).foldl (· + ·) 0 : Int) / ((v :: vs).length : Rat)
        minGas := vs.foldl min v
        maxGas := vs.foldl max v
        totalGas := (v :: vs).foldl (· + ·) 0
      }

/-! ## Orchestration: `main` (lines 80–178)

External effects are passed in explicitly: `logLines` is the content of the
log file (`none` when opening it raises `FileNotFoundError`), `respond`
gives each hash's HTTP outcome, and `writeOk` tells whether the
`open(output, 'w')` + `json.dump` step succeeds.  The result records the
process exit status, which hashes were actually sent to the RPC endpoint,
and what was written to the output file (`none` = not written). -/

/-- Observable outcome of one run of `main`. -/
structure RunResult where
  exitCode : Nat
  rpcRequests : List (List Char)
  outputWrite : Option (List (List Char × Json))
deriving Repr

/-- `main`: extract hashes (exit 1 on a missing/unreadable log, exit 0
immediately when no hash is found), fetch each receipt sequentially, write
the kept records (exit 1 on a write failure), then compute gas statistics —
where an unparsable `gasUsed` raises an uncaught exception, making the
interpreter exit with status 1 after the file was already written. -/
def main (logLines : Option (List (List Char)))
    (respond : List Char → Option Json) (writeOk : Bool) : RunResult :=
  match logLines with
  | none => ⟨1, [], none⟩
  | some lines =>
      let tx_hashes := extract_tx_hashes lines
      if tx_hashes.isEmpty then ⟨0, [], none⟩
      else
        let out := processHashes (tx_hashes.map fun h => (h, respond h))
        if writeOk then
          match gasUsedValues out.receipts with
          | Except.error _ => ⟨1, tx_hashes, some out.receipts⟩
          | Except.ok _ => ⟨0, tx_hashes, some out.receipts⟩
        else ⟨1, tx_hashes, none⟩

/-! ## Concrete test data -/

/-- 64 copies of the hex digit `a`. -/
def hexA : List Char := List.replicate 64 'a'

/-- A well-formed transaction hash: `0x` + 64 hex digits. -/
def hashA : List Char := '0' :: 'x' :: hexA

/-- A second well-formed transaction hash. -/
def hashB : List Char := '0' :: 'x' :: List.replicate 64 'b'

/-- A log line holding one well-formed occurrence. -/
def lineA : List Char := "tx_hash=".toList ++ hashA

/-- A log line holding two well-formed occurrences. -/
def lineTwoHashes : List Char :=
  lineA ++ (' ' :: "tx_hash=".toList) ++ hashB

/-- A log line whose `tx_hash=` occurrence is malformed (8 hex digits). -/
def lineMalformed : List Char := "tx_hash=0xdeadbeef".toList

/-- A third well-formed transaction hash. -/
def hashC : List Char := '0' :: 'x' :: List.replicate 64 'c'

/-- The success criterion applied by the fetch loop: `if receipt:` on the
value returned by `fetch_transaction_receipt`, i.e. Python truthiness. -/
def countedSuccessful (response : Option Json) : Bool :=
  truthy (fetch_transaction_receipt response)

/-- A receipt whose `gasUsed` is a string `int` cannot parse. -/
def badReceipt : Json := Json.obj [("gasUsed", Json.str "garbage")]

/-- An RPC response body delivering `badReceipt` as its result. -/
def rpcBodyBad : Json := Json.obj [("result", badReceipt)]

/-- A receipt whose `gasUsed` is present, parsable, and equal to `0`. -/
def zeroGasReceipt : Json := Json.obj [("gasUsed", Json.num 0)]

/-- Records with one hex-string `gasUsed` and one numeric-zero `gasUsed`. -/
def mixedGasRecords : List (List Char × Json) :=
  [(hashA, Json.obj [("gasUsed", Json.str "0x5208")]),
   (hashB, zeroGasReceipt)]

/-- The receipts of the spec's worked statistics example: `gasUsed` values
`0x5208` (21000) and `0xc350` (50000), plus one receipt without `gasUsed`. -/
def statsReceipts : List (List Char × Json) :=
  [(hashA, Json.obj [("gasUsed", Json.str "0x5208")]),
   (hashB, Json.obj [("gasUsed", Json.str "0xc350")]),
   (hashC, Json.obj [("status", Json.str "0x1")])]

/-! # Helper lemmas -/

/-- `re.search` returns the leftmost match: `searchLine` is the head of the
list of all matches. -/
theorem searchLine_eq_head (l : List Char) :
    searchLine l = (occurrences l).head? := by
  induction l with
  | nil => rfl
  | cons c rest ih =>
      cases h : matchesAt (c :: rest) <;>
        simp [searchLine, occurrences, h, ih]

/-- The kept records are exactly the truthy fetched receipts, in order. -/
theorem processHashes_receipts (pairs : List (List Char × Option Json)) :
    (processHashes pairs).receipts
      = (pairs.map fun p => (p.1, fetch_transaction_receipt p.2)).filter
          (fun q => truthy q.2) := by
  induction pairs with
  | nil => rfl
  | cons p rest ih =>
      cases h : truthy (fetch_transaction_receipt p.2) <;>
        simp [processHashes, h, ih, List.filter_cons]

/-- Loop counters: every hash is counted exactly once, and the number of
kept records equals the success counter. -/
theorem processHashes_counts (pairs : List (List Char × Option Json)) :
    (processHashes pairs).successful + (processHashes pairs).failed
        = pairs.length ∧
    (processHashes pairs).receipts.length = (processHashes pairs).successful := by
  induction pairs with
  | nil => exact ⟨rfl, rfl⟩
  | cons p rest ih =>
      obtain ⟨ih1, ih2⟩ := ih
      cases h : truthy (fetch_transaction_receipt p.2) <;>
        simp [processHashes, h] <;> omega

/-! # Claim C1: hash extraction -/

/-- C1 (counterexample): on a line carrying two well-formed `tx_hash=0x<64
hex>` occurrences, the scanner extracts only the first one — `re.search` is
called once per line — so a log with N = 2 well-formed occurrences yields 1
hash, not 2 as the claim states. -/
theorem scanner_misses_second_hash_on_line :
    (occurrences lineTwoHashes).length = 2 ∧
    extract_tx_hashes [lineTwoHashes] = [hashA] := by decide

/-- C1 (amended): extraction yields, for each line, the leftmost well-formed
occurrence only; hence, provided no line carries more than one well-formed
occurrence, extraction yields exactly the N well-formed occurrences, in file
order, duplicates preserved and all malformed occurrences ignored. -/
theorem scanner_extracts_first_match_per_line
    (lines : List (List Char))
    (h : ∀ l ∈ lines, (occurrences l).length ≤ 1) :
    extract_tx_hashes lines = (lines.map occurrences).flatten := by
  induction lines with
  | nil => rfl
  | cons l rest ih =>
      have hl : (occurrences l).length ≤ 1 := h l (List.mem_cons_self _ _)
      have hr := ih fun m hm => h m (List.mem_cons_of_mem _ hm)
      cases hocc : occurrences l with
      | nil =>
          simp only [extract_tx_hashes, List.filterMap_cons,
            searchLine_eq_head, hocc, List.head?_nil, List.map_cons,
            List.flatten_cons, List.nil_append]
          exact hr
      | cons a t =>
          cases t with
          | nil =>
              simp only [extract_tx_hashes, List.filterMap_cons,
                searchLine_eq_head, hocc, List.head?_cons, List.map_cons,
                List.flatten_cons, List.singleton_append]
              exact congrArg (a :: ·) hr
          | cons b t2 => simp [hocc] at hl

/-- C1 (witness): a concrete log — one malformed line, then the same
well-formed line twice — on which the amended statement is instantiated. -/
theorem scanner_extracts_first_match_per_line_witness :
    (∀ l ∈ [lineMalformed, lineA, lineA], (occurrences l).length ≤ 1) ∧
    extract_tx_hashes [lineMalformed, lineA, lineA]
      = ([lineMalformed, lineA, lineA].map occurrences).flatten :=
  ⟨by decide, scanner_extracts_first_match_per_line _ (by decide)⟩

/-! # Claim C2: success criterion of the fetch loop -/

/-- C2 (counterexample): a well-formed response with no `error` field whose
`result` is a non-null (but empty) object is counted as failed, because the
loop's `if receipt:` is a truthiness test and `{}` is falsy — contradicting
the claim that any non-null object, including an empty one, counts as
successful. -/
theorem empty_object_result_counted_failed :
    countedSuccessful (some (Json.obj [("result", Json.obj [])])) = false ∧
    processHashes [(hashA, some (Json.obj [("result", Json.obj [])]))]
      = ⟨[], 0, 1⟩ := by
  exact ⟨rfl, rfl⟩

/-- C2 (amended): a fetched hash is counted as successful exactly when the
response body has no `error` field and its `result` value is truthy (so a
null, missing, or empty-object result counts as failed); a failed hash is
excluded from the kept records and only increments the failure counter. -/
theorem success_criterion_is_truthiness :
    (∀ body : Json,
      countedSuccessful (some body)
        = ((body.get "error").isNone
            && truthy ((body.get "result").getD Json.null))) ∧
    (∀ (h : List Char) (resp : Option Json),
      processHashes [(h, resp)]
        = if countedSuccessful resp
          then ⟨[(h, fetch_transaction_receipt resp)], 1, 0⟩
          else ⟨[], 0, 1⟩) := by
  constructor
  · intro body
    unfold countedSuccessful fetch_transaction_receipt
    cases herr : body.get "error" <;> simp [herr, truthy]
  · intro h resp
    unfold countedSuccessful
    cases ht : truthy (fetch_transaction_receipt resp) <;>
      simp [processHashes, ht]

/-! # Claim C3: unparsable gasUsed -/

/-- C3 (code bug): a receipt whose `gasUsed` is the unparsable string
`"garbage"` makes the statistics loop raise (modelled by `Except.error`),
and a run reaching it exits with status 1 — the conversion `int(...)` at
lines 154/156 has no exception handler, so the claim's skip-and-continue
behaviour, which the spec clearly intends, does not hold of the code. -/
theorem unparsable_gas_used_crashes_run :
    parseGasUsed (Json.str "garbage") = none ∧
    gasUsedValues [(hashA, badReceipt)] = Except.error () ∧
    (main (some [lineA]) (fun _ => some rpcBodyBad) true).exitCode = 1 := by
  exact ⟨rfl, rfl, rfl⟩

/-! # Claim C4: inclusion criterion for gas statistics -/

/-- C4 (counterexample): a receipt carrying `gasUsed` equal to the numeric
value `0` — present and parsable, with `int(0) = 0` — contributes nothing
to the gas statistics, because line 150's `if receipt and
receipt.get("gasUsed"):` tests truthiness and `0` is falsy; this
contradicts the claim that parsable zero values are included. -/
theorem zero_gas_used_excluded :
    parseGasUsed (Json.num 0) = some 0 ∧
    zeroGasReceipt.get "gasUsed" = some (Json.num 0) ∧
    gasUsedValues [(hashA, zeroGasReceipt)] = Except.ok [] := by
  exact ⟨rfl, rfl, rfl⟩

/-- C4 (amended): when the statistics loop completes without raising, the
collected values are exactly those of records whose receipt is truthy and
whose `gasUsed` value is truthy (not merely present and parsable) — so a
falsy `gasUsed` such as numeric `0` is excluded from count, minimum and
sum. -/
theorem gas_inclusion_requires_truthy_value
    (rs : List (List Char × Json)) (vs : List Int)
    (h : gasUsedValues rs = Except.ok vs) :
    vs = rs.filterMap selectGas := by
  induction rs generalizing vs with
  | nil =>
      simp only [gasUsedValues] at h
      cases h
      rfl
  | cons p rest ih =>
      obtain ⟨hx, r⟩ := p
      simp only [gasUsedValues] at h
      cases hc : truthy r && truthy ((r.get "gasUsed").getD Json.null) with
      | false =>
          rw [hc] at h
          simp only [Bool.false_eq_true, if_false] at h
          have hfp : selectGas (hx, r) = none := by
            simp only [selectGas, hc, Bool.false_eq_true, if_false]
          rw [List.filterMap_cons, hfp]
          exact ih vs h
      | true =>
          rw [hc] at h
          simp only [if_true] at h
          cases hp : parseGasUsed ((r.get "gasUsed").getD Json.null) with
          | none => rw [hp] at h; cases h
          | some n =>
              rw [hp] at h
              have hfp : selectGas (hx, r) = some n := by
                simp only [selectGas, hc, if_true]
                exact hp
              cases hrest : gasUsedValues rest with
              | error e => rw [hrest] at h; cases h
              | ok vs' =>
                  rw [hrest] at h
                  cases h
                  rw [List.filterMap_cons, hfp]
                  exact congrArg (n :: ·) (ih vs' hrest)

/-- C4 (witness): the amended statement instantiated on concrete records —
one hex-string `gasUsed` (kept, value 21000) and one numeric-zero `gasUsed`
(excluded). -/
theorem gas_inclusion_requires_truthy_value_witness :
    gasUsedValues mixedGasRecords = Except.ok [21000] ∧
    [21000] = mixedGasRecords.filterMap selectGas :=
  ⟨rfl, gas_inclusion_requires_truthy_value mixedGasRecords [21000] rfl⟩

/-! # Claim C5: reported statistics -/

/-- C5: on the spec's worked example — `gasUsed` values `0x5208` and
`0xc350`, plus one receipt without `gasUsed` — the collected values are
21000 and 50000 and the reported statistics are average 35500, minimum
21000, maximum 50000, total 71000; and statistics are skipped (the "no
data" branch taken) exactly when no value was collected. -/
theorem gas_stats_match_spec_example :
    gasUsedValues statsReceipts = Except.ok [21000, 50000] ∧
    computeStats [21000, 50000] = some ⟨35500, 21000, 50000, 71000⟩ ∧
    (∀ vs : List Int, (computeStats vs).isNone = vs.isEmpty) := by
  refine ⟨rfl, ?_, ?_⟩
  · simp only [computeStats, List.foldl_cons, List.foldl_nil,
      List.length_cons, List.length_nil, Option.some.injEq,
      GasStats.mk.injEq]
    refine ⟨?_, by decide, by decide, by decide⟩
    norm_num
  · intro vs
    cases vs <;> simp [computeStats]

/-! # Claim C6: output round-trip and ordering -/

/-- C6: the records kept for the output JSON array are exactly the
successfully fetched ones — each appearing once, pairing the hash with the
receipt value exactly as the fetch returned it — in the same relative order
as the hashes in the input sequence. -/
theorem output_records_match_successful_fetches
    (pairs : List (List Char × Option Json)) :
    (processHashes pairs).receipts
      = (pairs.map fun p => (p.1, fetch_transaction_receipt p.2)).filter
          (fun q => truthy q.2) :=
  processHashes_receipts pairs

/-! # Claim C7: zero-hash short circuit -/

/-- C7: when extraction yields no hashes, `main` exits with status 0, sends
no RPC request, and never writes (or creates) the output file. -/
theorem no_hashes_short_circuit
    (lines : List (List Char)) (respond : List Char → Option Json)
    (writeOk : Bool) (h : extract_tx_hashes lines = []) :
    main (some lines) respond writeOk = ⟨0, [], none⟩ := by
  simp [main, h]

/-- C7 (witness): a log with one malformed line extracts nothing and
short-circuits. -/
theorem no_hashes_short_circuit_witness :
    extract_tx_hashes [lineMalformed] = [] ∧
    main (some [lineMalformed]) (fun _ => none) true = ⟨0, [], none⟩ :=
  ⟨by decide, no_hashes_short_circuit [lineMalformed] (fun _ => none) true
    (by decide)⟩

/-! # Claim C8: fatal I/O errors -/

/-- C8: a missing log file exits with status 1, with no RPC traffic and no
output file; a failing output write also exits with status 1 and leaves no
output file, even though every extracted hash was already fetched. -/
theorem fatal_errors_nonzero_exit
    (respond : List Char → Option Json) (writeOk : Bool)
    (lines : List (List Char)) (h : extract_tx_hashes lines ≠ []) :
    main none respond writeOk = ⟨1, [], none⟩ ∧
    (main (some lines) respond false).exitCode = 1 ∧
    (main (some lines) respond false).outputWrite = none ∧
    (main (some lines) respond false).rpcRequests = extract_tx_hashes lines := by
  have hne : (extract_tx_hashes lines).isEmpty = false := by
    simpa [List.isEmpty_iff] using h
  refine ⟨rfl, ?_, ?_, ?_⟩ <;> simp [main, hne]

/-- C8 (witness): a one-hash log, instantiating both the missing-log and the
failed-write conclusions. -/
theorem fatal_errors_nonzero_exit_witness :
    extract_tx_hashes [lineA] ≠ [] ∧
    (main none (fun _ => none) true = ⟨1, [], none⟩ ∧
      (main (some [lineA]) (fun _ => none) false).exitCode = 1 ∧
      (main (some [lineA]) (fun _ => none) false).outputWrite = none ∧
      (main (some [lineA]) (fun _ => none) false).rpcRequests
        = extract_tx_hashes [lineA]) :=
  ⟨by decide, fatal_errors_nonzero_exit (fun _ => none) true [lineA]
    (by decide)⟩

/-! # Claim C9: summary counting invariant -/

/-- C9: over the fetch loop run on the extracted hashes, the success and
failure counters sum to the number of extracted hashes, and the number of
records collected for the output file equals the success counter. -/
theorem summary_counts_invariant
    (lines : List (List Char)) (respond : List Char → Option Json) :
    (processHashes ((extract_tx_hashes lines).map
        fun h => (h, respond h))).successful
      + (processHashes ((extract_tx_hashes lines).map
          fun h => (h, respond h))).failed
      = (extract_tx_hashes lines).length ∧
    (processHashes ((extract_tx_hashes lines).map
        fun h => (h, respond h))).receipts.length
      = (processHashes ((extract_tx_hashes lines).map
          fun h => (h, respond h))).successful := by
  have h := processHashes_counts
    ((extract_tx_hashes lines).map fun h => (h, respond h))
  simpa [List.length_map] using h

/-! # Claim C10: all fetches fail -/

/-- C10: when at least one hash is extracted, every fetch fails, and the
write succeeds, the output file is still written holding the empty array,
and the run exits with status 0. -/
theorem all_fetches_failed_empty_output
    (lines : List (List Char)) (respond : List Char → Option Json)
    (h1 : extract_tx_hashes lines ≠ [])
    (h2 : ∀ hsh ∈ extract_tx_hashes lines,
        truthy (fetch_transaction_receipt (respond hsh)) = false) :
    main (some lines) respond true = ⟨0, extract_tx_hashes lines, some []⟩ := by
  have hne : (extract_tx_hashes lines).isEmpty = false := by
    simpa [List.isEmpty_iff] using h1
  have hrec : (processHashes ((extract_tx_hashes lines).map
      fun hh => (hh, respond hh))).receipts = [] := by
    rw [processHashes_receipts]
    rw [List.filter_eq_nil_iff]
    intro a ha
    simp only [List.map_map, List.mem_map, Function.comp] at ha
    obtain ⟨b, hbmem, rfl⟩ := ha
    simpa using h2 b hbmem
  simp [main, hne, hrec, gasUsedValues]

/-- C10 (witness): a one-hash log against an endpoint that always fails at
the transport level. -/
theorem all_fetches_failed_empty_output_witness :
    extract_tx_hashes [lineA] ≠ [] ∧
    (∀ hsh ∈ extract_tx_hashes [lineA],
        truthy (fetch_transaction_receipt ((fun _ => none) hsh)) = false) ∧
    main (some [lineA]) (fun _ => none) true
      = ⟨0, extract_tx_hashes [lineA], some []⟩ :=
  ⟨by decide, by decide,
    all_fetches_failed_empty_output [lineA] (fun _ => none) (by decide)
      (by decide)⟩

end AnalyzeGas
